import Mathlib

/-!
Verification of the benchmarking/comparison engine of the
northwind performance monitor (performance analyzer + cache manager).

The Python source (`app/core/performance.py`, `app/core/cache.py`) is
shallowly embedded: float arithmetic is modelled over `ℚ`, dictionaries
become structures, per-call I/O outcomes (database responses, redis
responses, measured wall-clock latencies) become explicit inputs, and
`raise` becomes `Except.error` / explicit outcome fields.  Stateful
methods of `PerformanceAnalyzer` / `CacheManager` become functions from
the old state (plus environment inputs) to result × new state.
-/

namespace NPM

/-! ### Python numeric helpers

`round(x, 2)` on floats is idealized over `ℚ` as exact round-half-to-even
of `100 * x`, divided by `100`. -/

/-- Round-half-to-even of a rational to an integer (Python `round(x)`). -/
def roundHalfEven (x : ℚ) : ℤ :=
  let f : ℤ := ⌊x⌋
  let r : ℚ := x - f
  if r < 1/2 then f
  else if 1/2 < r then f + 1
  else if f % 2 = 0 then f else f + 1

/-- Python `round(x, 2)` idealized over `ℚ`. -/
def pyRound2 (x : ℚ) : ℚ := (roundHalfEven (100 * x) : ℚ) / 100

/-! ### Python `statistics` and `min`/`max` builtins over a list sample -/

/-- Insert into a sorted list, keeping order (helper for `pySorted`). -/
def insertSorted (x : ℚ) : List ℚ → List ℚ
  | [] => [x]
  | y :: ys => if x ≤ y then x :: y :: ys else y :: insertSorted x ys

/-- Python `sorted(data)` for rationals.  Insertion sort; over a total
order it returns the same list as any correct sort of the sample. -/
def pySorted (l : List ℚ) : List ℚ := l.foldr insertSorted []

/-- Python `min(times)` over a non-empty list (`0` as junk value on `[]`,
which the source never reaches: `_calculate_stats` guards emptiness). -/
def pyMin : List ℚ → ℚ
  | [] => 0
  | x :: xs => xs.foldl min x

/-- Python `max(times)` over a non-empty list (`0` junk value on `[]`). -/
def pyMax : List ℚ → ℚ
  | [] => 0
  | x :: xs => xs.foldl max x

/-- Python `statistics.mean(times)`: sum divided by length. -/
def pyMean (l : List ℚ) : ℚ := l.sum / l.length

/-- Python `statistics.median(times)`: middle of the sorted sample for odd
length, average of the two middle elements for even length. -/
def pyMedian (l : List ℚ) : ℚ :=
  let data := pySorted l
  let n := data.length
  if n % 2 = 1 then data.getD (n / 2) 0
  else (data.getD (n / 2 - 1) 0 + data.getD (n / 2) 0) / 2

/-- Square of Python `statistics.stdev(times)`, i.e. the sample variance
`Σ (x - mean)² / (n - 1)`.  The source stores `sqrt` of this value as
`std_dev_ms`; since `sqrt` is strictly monotone with `sqrt 0 = 0`, facts
about zero/positivity of the standard deviation are equivalent to the
same facts about this variance. -/
def sampleVar (l : List ℚ) : ℚ :=
  let m := pyMean l
  (l.map (fun x => (x - m) ^ 2)).sum / (l.length - 1 : ℕ)

/-- Python `statistics.quantiles(data, n=n)` with the default exclusive
method: sorted data, cut points `i/n` for `i = 1..n-1`, index
`j = clamp (i*(ld+1)/n) [1, ld-1]` and linear interpolation between
`data[j-1]` and `data[j]`.  Only reached by `_calculate_stats` when the
sample size is at least 20 (p95) resp. 100 (p99). -/
def pyQuantiles (l : List ℚ) (n : ℕ) : List ℚ :=
  let data := pySorted l
  let ld := data.length
  let m := ld + 1
  (List.range (n - 1)).map (fun i0 =>
    let i := i0 + 1
    let j0 := i * m / n
    let delta := i * m % n
    let j := min (max j0 1) (ld - 1)
    ((data.getD (j - 1) 0) * ((n : ℚ) - (delta : ℚ))
      + (data.getD j 0) * (delta : ℚ)) / (n : ℚ))

/-- The dictionary produced by `PerformanceAnalyzer._calculate_stats` for a
non-empty sample.  `var_ms` is the square of the source's `std_dev_ms`
(see `sampleVar`); all other fields are verbatim. -/
structure Stats where
  min_ms : ℚ
  max_ms : ℚ
  avg_ms : ℚ
  median_ms : ℚ
  var_ms : ℚ
  p95_ms : ℚ
  p99_ms : ℚ
deriving Repr, DecidableEq

/-- The statistics fields of `_calculate_stats` for a non-empty sample
`times`, mirroring the source line by line. -/
def statsOf (times : List ℚ) : Stats :=
  { min_ms := pyMin times
    max_ms := pyMax times
    avg_ms := pyMean times
    median_ms := pyMedian times
    var_ms := if 1 < times.length then sampleVar times else 0
    p95_ms := if 20 ≤ times.length then (pyQuantiles times 20).getD 18 0 else pyMax times
    p99_ms := if 100 ≤ times.length then (pyQuantiles times 100).getD 98 0 else pyMax times }

/-- Value of a run record's stats field.  Python distinguishes `None`
(the guarded `if sql_times else None` in `run_single_test`), the empty
dict `{}` (what `_calculate_stats` returns on an empty sample), and a
populated stats dict; the three are kept apart. -/
inductive StatsField where
  | null
  | emptyDict
  | stats (s : Stats)
deriving Repr, DecidableEq

/-- `PerformanceAnalyzer._calculate_stats`: empty dict on an empty
sample, otherwise the populated statistics dict. -/
def calculate_stats (times : List ℚ) : StatsField :=
  if times = [] then .emptyDict else .stats (statsOf times)

/-! ### Cache manager (`app/core/cache.py`)

Redis itself is an external collaborator; it is modelled as an in-memory
keyed store together with per-operation fault-injection flags (`getFails`
/ `setFails`) standing for the `except Exception` branches.  The stored
JSON string `{"data":…, "cached_at":…, "ttl":…}` is modelled as a parsed
`CacheEntry` (a `json.loads ∘ json.dumps` round trip is the identity for
these payloads).  `hashlib.md5(json.dumps(...)).hexdigest()` is an
external pure function of the query and canonicalized parameter list; it
appears as an explicit argument `H`, with its fixed 32-character hex
output length as a hypothesis where relevant. -/

/-- Query result rows; contents are opaque to the engine (only length is
consumed, for `row_count`). -/
abbrev Data := List String

/-- Parsed form of the cached JSON payload written by
`cache_query_result`. -/
structure CacheEntry where
  data : Data
  cached_at : ℚ
  ttl : ℕ
deriving Repr, DecidableEq

/-- Redis model: keyed store plus fault-injection flags for the two
operations used by the query cache. -/
structure Redis where
  store : List (String × CacheEntry)
  getFails : Bool
  setFails : Bool
deriving Repr, DecidableEq

/-- First-match association lookup in the redis store. -/
def storeLookup : List (String × CacheEntry) → String → Option CacheEntry
  | [], _ => none
  | (k, v) :: rest, key => if k = key then some v else storeLookup rest key

/-- `redis_client.get key`: `none` models a raised exception, `some v`
the returned value. -/
def Redis.get (r : Redis) (key : String) : Option (Option CacheEntry) :=
  if r.getFails then none else some (storeLookup r.store key)

/-- `redis_client.setex key ttl value`: `none` models a raised
exception, `some r'` success with the updated store (a later `get` of
the key sees the fresh entry).  Time-based expiry of the entry after
`ttl` seconds is redis-internal behaviour and is not modelled. -/
def Redis.setex (r : Redis) (key : String) (ttl : ℕ) (entry : CacheEntry) :
    Option Redis :=
  if r.setFails then none else some { r with store := (key, entry) :: r.store }

/-- `settings.CACHE_TTL_SECONDS` (default `300` in `config.py`). -/
def CACHE_TTL_SECONDS : ℕ := 300

/-- `CacheManager` state: redis handle plus the hit/miss/set/delete
counters of `self.cache_stats`. -/
structure CacheMgr where
  redis : Redis
  hits : ℕ
  misses : ℕ
  sets : ℕ
  deletes : ℕ
deriving Repr, DecidableEq

/-- `CacheManager._generate_cache_key`: `params or []` canonicalizes a
missing (`none`) parameter list to `[]`, then the namespace prefix is
glued with `":"` to the md5 hex digest `H` of the canonicalized
`{query, params}` JSON. -/
def _generate_cache_key (H : String → List String → String)
    (prefix_ query : String) (params : Option (List String)) : String :=
  prefix_ ++ ":" ++ H query (params.getD [])

/-- The dict returned by `get_cached_query` on a hit: the parsed cached
payload with `cache_hit` and the (rounded) retrieval latency added. -/
structure CachedHit where
  data : Data
  cached_at : ℚ
  ttl : ℕ
  cache_hit : Bool
  cache_retrieval_time_ms : ℚ
deriving Repr, DecidableEq

/-- `CacheManager.get_cached_query`.  `rt` is the measured wall-clock
retrieval latency in ms (an environment input).  A raised redis error is
caught: the miss counter is incremented and `None` returned, exactly as
on a plain miss. -/
def get_cached_query (H : String → List String → String) (st : CacheMgr)
    (query : String) (params : Option (List String)) (rt : ℚ) :
    Option CachedHit × CacheMgr :=
  let key := _generate_cache_key H "query" query params
  match st.redis.get key with
  | none => (none, { st with misses := st.misses + 1 })
  | some none => (none, { st with misses := st.misses + 1 })
  | some (some e) =>
      (some { data := e.data, cached_at := e.cached_at, ttl := e.ttl,
              cache_hit := true, cache_retrieval_time_ms := pyRound2 rt },
       { st with hits := st.hits + 1 })

/-- `CacheManager.cache_query_result`.  `now` is `time.time()` at the
write (environment input).  `ttl or settings.CACHE_TTL_SECONDS`: both a
missing and a zero ttl fall back to the configured default.  A raised
redis error is caught and reported as `false` without incrementing the
set counter; the function never raises. -/
def cache_query_result (H : String → List String → String) (st : CacheMgr)
    (query : String) (result : Data) (params : Option (List String))
    (ttl : Option ℕ) (now : ℚ) : Bool × CacheMgr :=
  let key := _generate_cache_key H "query" query params
  let cache_ttl := match ttl with
    | none => CACHE_TTL_SECONDS
    | some t => if t = 0 then CACHE_TTL_SECONDS else t
  let entry : CacheEntry := { data := result, cached_at := now, ttl := cache_ttl }
  match st.redis.setex key cache_ttl entry with
  | none => (false, st)
  | some r' => (true, { st with redis := r', sets := st.sets + 1 })

/-! ### Query executor (`execute_sql_query` in `performance.py`)

The database manager is an external collaborator: it is modelled by a
call counter plus a behaviour function mapping the call index and query
to either a raised exception (`Except.error`) or a `(rows, elapsed_ms)`
pair, mirroring `DatabaseManager.execute_query_async`. -/

/-- Database manager model: call counter plus per-call behaviour. -/
structure Db where
  calls : ℕ
  behavior : ℕ → String → Except String (Data × ℚ)

/-- One call of `db_manager.execute_query_async`: consumes the next
behaviour slot and increments the call counter (also when raising). -/
def Db.exec (db : Db) (query : String) : Except String (Data × ℚ) × Db :=
  (db.behavior db.calls query, { db with calls := db.calls + 1 })

/-- Combined mutable state touched by `execute_sql_query`. -/
structure Sys where
  db : Db
  cache : CacheMgr

/-- The dict returned by `execute_sql_query`: either the success shape
`{data, execution_time_ms, row_count, cache_hit, query_type: "sql"}` or
the error shape `{error, execution_time_ms, query_type: "sql"}` (the
`"error"` key is present exactly in the second case). -/
inductive SqlResponse where
  | ok (data : Data) (execution_time_ms : ℚ) (row_count : ℕ) (cache_hit : Bool)
  | err (error : String) (execution_time_ms : ℚ)
deriving Repr, DecidableEq

/-- The cache-miss tail of `execute_sql_query` (from `start_time =
time.time()` on): execute against the database; on success build the
response and, when caching is enabled, write the result back through
`cache_query_result`, whose boolean outcome is discarded; on a raised
database error return the error dict.  `now` is the wall clock at the
write-back, `err_ms` the measured elapsed ms of a failed call. -/
def execSqlMiss (H : String → List String → String) (s : Sys) (query : String)
    (use_cache : Bool) (now err_ms : ℚ) : SqlResponse × Sys :=
  match s.db.exec query with
  | (.ok (result, execution_time), db') =>
      let response := SqlResponse.ok result execution_time result.length false
      if use_cache then
        let (_, c') := cache_query_result H s.cache query result none none now
        (response, { db := db', cache := c' })
      else
        (response, { s with db := db' })
  | (.error e, db') => (.err e err_ms, { s with db := db' })

/-- `PerformanceAnalyzer.execute_sql_query`.  With `use_cache` the cache
is consulted first; a hit returns immediately with `cache_hit = true`
and the cache-retrieval latency as `execution_time_ms`, never touching
the database.  `rt` is the measured cache-retrieval latency. -/
def execute_sql_query (H : String → List String → String) (s : Sys)
    (query : String) (use_cache : Bool) (rt now err_ms : ℚ) :
    SqlResponse × Sys :=
  if use_cache then
    match get_cached_query H s.cache query none rt with
    | (some cr, c') =>
        (.ok cr.data cr.cache_retrieval_time_ms cr.data.length true,
         { s with cache := c' })
    | (none, c') => execSqlMiss H { s with cache := c' } query use_cache now err_ms
  else execSqlMiss H s query use_cache now err_ms

/-! ### Run orchestration (`performance.py`)

The run functions consume per-iteration executor outcomes.  Those
outcomes (the dicts produced by `execute_sql_query` /
`execute_graphql_query`) are supplied as explicit trace lists: the loops
in the source do nothing with them except append, filter and aggregate.
The spec's `relational` backend is the source's `"sql"` side and its
`graph` backend the `"graphql"` side. -/

/-- Backend tag carried in the `query_type` field of every executor
response dict. -/
inductive QueryType where
  | sql
  | graphql
deriving Repr, DecidableEq

/-- One executor response as seen by the run loops: backend tag, elapsed
time, the optional `"error"` key, and the `cache_hit` flag. -/
structure ExecResult where
  query_type : QueryType
  execution_time_ms : ℚ
  error : Option String
  cache_hit : Bool
deriving Repr, DecidableEq

/-- `[r["execution_time_ms"] for r in results if "error" not in r]`. -/
def successTimes (results : List ExecResult) : List ℚ :=
  (results.filter (fun r => r.error = none)).map (fun r => r.execution_time_ms)

/-- The `comparison` dict of a single-test run. -/
structure Comparison where
  sql_avg_ms : ℚ
  graphql_avg_ms : ℚ
  performance_difference_percent : ℚ
  faster_option : String
deriving Repr, DecidableEq

/-- The dict returned by `run_single_test` (timestamp and the static
description string omitted: both are environment/config pass-throughs
that no aggregation reads). -/
structure SingleRecord where
  test_name : String
  iterations : ℕ
  use_cache : Bool
  sql_stats : StatsField
  graphql_stats : StatsField
  sql_results : List ExecResult
  graphql_results : List ExecResult
  comparison : Option Comparison
deriving Repr, DecidableEq

/-- The dict returned by `run_concurrent_test` (timestamp omitted). -/
structure ConcurrentRecord where
  test_name : String
  concurrent_users : ℕ
  duration_seconds : ℕ
  total_requests : ℕ
  successful_requests : ℕ
  error_rate_percent : ℚ
  requests_per_second : ℚ
  sql_stats : StatsField
  graphql_stats : StatsField
deriving Repr, DecidableEq

/-- The dict built and appended by `run_individual_test` (timestamp
omitted). -/
structure IndivRecord where
  test_name : String
  iterations : ℕ
  use_cache : Bool
  sql_time : ℚ
  graphql_time : ℚ
  sql_times : List ℚ
  graphql_times : List ℚ
  performance_ratio : ℚ
deriving Repr, DecidableEq

/-- An entry of the analyzer's `self.test_results` history. -/
inductive HistEntry where
  | single (r : SingleRecord)
  | conc (r : ConcurrentRecord)
  | indiv (r : IndivRecord)
deriving Repr, DecidableEq

/-- Mutable `PerformanceAnalyzer` state observed by the claims:
`self.test_results` and `self.test_status`. -/
structure Analyzer where
  test_results : List HistEntry
  test_status : String
deriving Repr, DecidableEq

/-- The key set of `PerformanceAnalyzer._get_test_queries` (the query
bodies are opaque strings handed to the external backends; no claim
reads them). -/
def test_query_names : List String :=
  ["simple_select", "customer_orders", "order_aggregation", "complex_join",
   "pagination_test"]

/-- `PerformanceAnalyzer.run_single_test`.  An unknown `test_name`
raises `ValueError` before any work: the analyzer state is untouched (the
function never mutates status or history on any path).  `sqlRs` / `gqlRs`
are the per-iteration executor responses collected by the two loops. -/
def run_single_test (a : Analyzer) (test_name : String) (iterations : ℕ)
    (use_cache : Bool) (sqlRs gqlRs : List ExecResult) :
    Except String SingleRecord × Analyzer :=
  if test_name ∉ test_query_names then
    (.error ("Unknown test: " ++ test_name), a)
  else
    let sql_times := successTimes sqlRs
    let graphql_times := successTimes gqlRs
    let comparison :=
      if sql_times ≠ [] ∧ graphql_times ≠ [] then
        let sql_avg := pyMean sql_times
        let graphql_avg := pyMean graphql_times
        some { sql_avg_ms := sql_avg
               graphql_avg_ms := graphql_avg
               performance_difference_percent :=
                 (graphql_avg - sql_avg) / sql_avg * 100
               faster_option := if sql_avg < graphql_avg then "sql" else "graphql" }
      else none
    (.ok { test_name := test_name
           iterations := iterations
           use_cache := use_cache
           sql_stats := if sql_times = [] then .null else calculate_stats sql_times
           graphql_stats :=
             if graphql_times = [] then .null else calculate_stats graphql_times
           sql_results := sqlRs
           graphql_results := gqlRs
           comparison := comparison }, a)

/-- `PerformanceAnalyzer.run_concurrent_test`.  The source sets
`self.test_status = "running_concurrent"` *before* validating
`test_name`, so the raise for an unknown test leaves the status changed;
nothing is appended to history on any path.  `results` is the flattened
merge of the per-user result buffers. -/
def run_concurrent_test (a : Analyzer) (test_name : String)
    (concurrent_users : ℕ) (duration_seconds : ℕ)
    (results : List ExecResult) : Except String ConcurrentRecord × Analyzer :=
  let a1 := { a with test_status := "running_concurrent" }
  if test_name ∉ test_query_names then
    (.error ("Unknown test: " ++ test_name), a1)
  else
    let a2 := { a1 with test_status := "idle" }
    let sql_results :=
      results.filter (fun r => r.query_type = .sql ∧ r.error = none)
    let graphql_results :=
      results.filter (fun r => r.query_type = .graphql ∧ r.error = none)
    let error_results := results.filter (fun r => r.error ≠ none)
    (.ok { test_name := test_name ++ "_concurrent"
           concurrent_users := concurrent_users
           duration_seconds := duration_seconds
           total_requests := results.length
           successful_requests := sql_results.length + graphql_results.length
           error_rate_percent :=
             if results ≠ [] then
               (error_results.length : ℚ) / (results.length : ℚ) * 100
             else 0
           requests_per_second :=
             (results.length : ℚ) / (duration_seconds : ℚ)
           sql_stats :=
             calculate_stats (sql_results.map (fun r => r.execution_time_ms))
           graphql_stats :=
             calculate_stats (graphql_results.map (fun r => r.execution_time_ms)) },
     a2)

/-- Scenario matrix of `run_comprehensive_tests`: `{no-cache ×10,
cache ×10, no-cache ×50}` crossed with every test, followed by two
concurrent scenarios (20 users, 60 s each). -/
def comprehensiveSlots : ℕ := 3 * test_query_names.length + 2

/-- Sequential execution of the comprehensive matrix starting at slot
`i` with `n` slots remaining: append each completed scenario's record;
on the first raising scenario abandon the rest (`false` = failed). -/
def collectRuns (outcome : ℕ → Except String HistEntry) :
    ℕ → ℕ → List HistEntry × Bool
  | _, 0 => ([], true)
  | i, n + 1 =>
    match outcome i with
    | .error _ => ([], false)
    | .ok r =>
      let p := collectRuns outcome (i + 1) n
      (r :: p.1, p.2)

/-- `PerformanceAnalyzer.run_comprehensive_tests`.  The history is reset
to `[]` at the start (`self.test_results = []`), then each scenario's
record is appended in order; an unhandled scenario error abandons the
remaining matrix, sets status `"failed"` and re-raises, keeping the
partial results appended so far.  `outcome` is the trace of scenario
results. -/
def run_comprehensive_tests (a : Analyzer)
    (outcome : ℕ → Except String HistEntry) : Analyzer :=
  let run := collectRuns outcome 0 comprehensiveSlots
  { test_results := run.1
    test_status := if run.2 then "completed" else "failed" }

/-- `PerformanceAnalyzer.run_individual_test`.  Validates the name
before touching state.  The SQL loop collects raw database times (a
raised database error would abort the whole test; the trace `sqlTimes`
models the successful case the claims exercise).  The GraphQL loop
appends `execution_time_ms / 1000` for an error-free response and the
literal `0` for an errored one.  After the `finally` grace delay the
status is `"idle"` and the record has been appended to history. -/
def run_individual_test (a : Analyzer) (test_name : String) (iterations : ℕ)
    (use_cache : Bool) (sqlTimes : List ℚ) (gqlRs : List ExecResult) :
    Except String IndivRecord × Analyzer :=
  if test_name ∉ test_query_names then
    (.error ("Unknown test: " ++ test_name), a)
  else
    let sql_results := sqlTimes
    let graphql_results := gqlRs.map (fun r =>
      if r.error = none then r.execution_time_ms / 1000 else 0)
    let avg_sql_time := sql_results.sum / (sql_results.length : ℚ)
    let avg_graphql_time := graphql_results.sum / (graphql_results.length : ℚ)
    let rec_ : IndivRecord :=
      { test_name := test_name
        iterations := iterations
        use_cache := use_cache
        sql_time := avg_sql_time
        graphql_time := avg_graphql_time
        sql_times := sql_results
        graphql_times := graphql_results
        performance_ratio :=
          if 0 < avg_sql_time then avg_graphql_time / avg_sql_time else 0 }
    (.ok rec_,
     { test_results := a.test_results ++ [HistEntry.indiv rec_]
       test_status := "idle" })

/-! ### Helper lemmas -/

lemma foldl_min_le_init (xs : List ℚ) (a : ℚ) : xs.foldl min a ≤ a := by
  induction xs generalizing a with
  | nil => simp
  | cons y ys ih =>
    calc (y :: ys).foldl min a = ys.foldl min (min a y) := rfl
    _ ≤ min a y := ih _
    _ ≤ a := min_le_left _ _

lemma foldl_min_le_mem (xs : List ℚ) (a : ℚ) :
    ∀ x ∈ xs, xs.foldl min a ≤ x := by
  induction xs generalizing a with
  | nil => simp
  | cons y ys ih =>
    intro x hx
    rcases List.mem_cons.mp hx with rfl | hx
    · calc (x :: ys).foldl min a = ys.foldl min (min a x) := rfl
      _ ≤ min a x := foldl_min_le_init _ _
      _ ≤ x := min_le_right _ _
    · exact ih (min a y) x hx

lemma foldl_min_mem (xs : List ℚ) (a : ℚ) :
    xs.foldl min a = a ∨ xs.foldl min a ∈ xs := by
  induction xs generalizing a with
  | nil => simp
  | cons y ys ih =>
    rcases ih (min a y) with h | h
    · rcases le_total a y with hay | hya
      · left
        simpa [List.foldl_cons, min_eq_left hay] using h
      · right
        simp only [List.foldl_cons] at h ⊢
        rw [h, min_eq_right hya]
        exact List.mem_cons_self _ _
    · right
      exact List.mem_cons_of_mem _ h

lemma foldl_max_init_le (xs : List ℚ) (a : ℚ) : a ≤ xs.foldl max a := by
  induction xs generalizing a with
  | nil => simp
  | cons y ys ih =>
    calc a ≤ max a y := le_max_left _ _
    _ ≤ ys.foldl max (max a y) := ih _
    _ = (y :: ys).foldl max a := rfl

lemma foldl_max_mem_le (xs : List ℚ) (a : ℚ) :
    ∀ x ∈ xs, x ≤ xs.foldl max a := by
  induction xs generalizing a with
  | nil => simp
  | cons y ys ih =>
    intro x hx
    rcases List.mem_cons.mp hx with rfl | hx
    · calc x ≤ max a x := le_max_right _ _
      _ ≤ ys.foldl max (max a x) := foldl_max_init_le _ _
      _ = (x :: ys).foldl max a := rfl
    · exact ih (max a y) x hx

lemma foldl_max_mem (xs : List ℚ) (a : ℚ) :
    xs.foldl max a = a ∨ xs.foldl max a ∈ xs := by
  induction xs generalizing a with
  | nil => simp
  | cons y ys ih =>
    rcases ih (max a y) with h | h
    · rcases le_total a y with hay | hya
      · right
        simp only [List.foldl_cons] at h ⊢
        rw [h, max_eq_right hay]
        exact List.mem_cons_self _ _
      · left
        simpa [List.foldl_cons, max_eq_left hya] using h
    · right
      exact List.mem_cons_of_mem _ h

lemma pyMin_mem (l : List ℚ) (h : l ≠ []) : pyMin l ∈ l := by
  cases l with
  | nil => exact absurd rfl h
  | cons x xs =>
    rcases foldl_min_mem xs x with h' | h'
    · rw [pyMin, h']
      exact List.mem_cons_self _ _
    · exact List.mem_cons_of_mem _ h'

lemma pyMin_le (l : List ℚ) : ∀ x ∈ l, pyMin l ≤ x := by
  cases l with
  | nil => simp
  | cons y ys =>
    intro x hx
    rcases List.mem_cons.mp hx with rfl | hx
    · exact foldl_min_le_init ys x
    · exact foldl_min_le_mem ys y x hx

lemma pyMax_mem (l : List ℚ) (h : l ≠ []) : pyMax l ∈ l := by
  cases l with
  | nil => exact absurd rfl h
  | cons x xs =>
    rcases foldl_max_mem xs x with h' | h'
    · rw [pyMax, h']
      exact List.mem_cons_self _ _
    · exact List.mem_cons_of_mem _ h'

lemma le_pyMax (l : List ℚ) : ∀ x ∈ l, x ≤ pyMax l := by
  cases l with
  | nil => simp
  | cons y ys =>
    intro x hx
    rcases List.mem_cons.mp hx with rfl | hx
    · exact foldl_max_init_le ys x
    · exact foldl_max_mem_le ys y x hx

lemma insertSorted_perm (x : ℚ) (l : List ℚ) :
    (insertSorted x l).Perm (x :: l) := by
  induction l with
  | nil => simp [insertSorted]
  | cons y ys ih =>
    by_cases hxy : x ≤ y
    · simp [insertSorted, hxy]
    · simp only [insertSorted, if_neg hxy]
      exact (ih.cons y).trans (List.Perm.swap x y ys)

lemma pySorted_perm (l : List ℚ) : (pySorted l).Perm l := by
  induction l with
  | nil => simp [pySorted]
  | cons x xs ih =>
    exact (insertSorted_perm x (pySorted xs)).trans (ih.cons x)

lemma pyMedian_mem_of_odd (l : List ℚ) (h : l.length % 2 = 1) :
    pyMedian l ∈ l := by
  have hp := pySorted_perm l
  have hlen : (pySorted l).length = l.length := hp.length_eq
  have h2 : (pySorted l).length % 2 = 1 := by rw [hlen]; exact h
  have hpos : 0 < (pySorted l).length := by omega
  have hidx : (pySorted l).length / 2 < (pySorted l).length :=
    Nat.div_lt_self hpos (by norm_num)
  rw [pyMedian]
  simp only [h2, if_pos]
  rw [List.getD_eq_getElem _ _ hidx]
  exact hp.subset (List.getElem_mem hidx)

/-! ### C5 — statistics aggregator -/

/-- **C5**: for every non-empty elapsed-time sample, `_calculate_stats`
returns the sample's minimum, maximum, arithmetic mean and median, a
standard deviation of `0` for a singleton sample (`var_ms` being the
square of the source's `std_dev_ms`), `p95` equal to the sample maximum
below size 20, `p99` equal to the sample maximum below size 100; and on
`[10, 20, 30]` it returns `mean = 20`, `median = 20`, `min = 10`,
`max = 30`, a strictly positive standard deviation (variance `100`),
and `p95 = p99 = 30`. -/
theorem C5_calculate_stats :
    (∀ l : List ℚ, l ≠ [] →
      ∃ s, calculate_stats l = .stats s ∧
        s.min_ms ∈ l ∧ (∀ x ∈ l, s.min_ms ≤ x) ∧
        s.max_ms ∈ l ∧ (∀ x ∈ l, x ≤ s.max_ms) ∧
        s.avg_ms * (l.length : ℚ) = l.sum ∧
        s.median_ms = pyMedian l ∧
        (l.length % 2 = 1 → s.median_ms ∈ l) ∧
        (l.length = 1 → s.var_ms = 0) ∧
        (l.length < 20 → s.p95_ms = s.max_ms) ∧
        (l.length < 100 → s.p99_ms = s.max_ms)) ∧
    ((statsOf [10, 20, 30]).min_ms = 10 ∧
     (statsOf [10, 20, 30]).max_ms = 30 ∧
     (statsOf [10, 20, 30]).avg_ms = 20 ∧
     (statsOf [10, 20, 30]).median_ms = 20 ∧
     (statsOf [10, 20, 30]).var_ms = 100 ∧
     0 < (statsOf [10, 20, 30]).var_ms ∧
     (statsOf [10, 20, 30]).p95_ms = 30 ∧
     (statsOf [10, 20, 30]).p99_ms = 30 ∧
     calculate_stats [10, 20, 30] = .stats (statsOf [10, 20, 30])) := by
  constructor
  · intro l h
    refine ⟨statsOf l, by simp [calculate_stats, h], ?_⟩
    have hlen : (l.length : ℚ) ≠ 0 := by
      simpa [List.length_eq_zero] using h
    refine ⟨pyMin_mem l h, pyMin_le l, pyMax_mem l h, le_pyMax l, ?_, rfl,
      pyMedian_mem_of_odd l, ?_, ?_, ?_⟩
    · show pyMean l * (l.length : ℚ) = l.sum
      rw [pyMean]
      exact div_mul_cancel₀ _ hlen
    · intro h1
      simp [statsOf, h1]
    · intro h20
      have : ¬ (20 ≤ l.length) := by omega
      simp [statsOf, this]
    · intro h100
      have : ¬ (100 ≤ l.length) := by omega
      simp [statsOf, this]
  · refine ⟨?_, ?_, ?_, ?_, ?_, ?_, ?_, ?_, by simp [calculate_stats]⟩ <;>
      norm_num [statsOf, pyMin, pyMax, pyMean, pyMedian, pySorted,
        insertSorted, sampleVar]

/-- Witness for C5 at the concrete sample `[10, 20, 30]`. -/
theorem C5_calculate_stats_witness :
    ∃ s, calculate_stats [10, 20, 30] = .stats s ∧
      s.min_ms ∈ ([10, 20, 30] : List ℚ) ∧
      (∀ x ∈ ([10, 20, 30] : List ℚ), s.min_ms ≤ x) ∧
      s.max_ms ∈ ([10, 20, 30] : List ℚ) ∧
      (∀ x ∈ ([10, 20, 30] : List ℚ), x ≤ s.max_ms) ∧
      s.avg_ms * (([10, 20, 30] : List ℚ).length : ℚ) = ([10, 20, 30] : List ℚ).sum ∧
      s.median_ms = pyMedian [10, 20, 30] ∧
      (([10, 20, 30] : List ℚ).length % 2 = 1 → s.median_ms ∈ ([10, 20, 30] : List ℚ)) ∧
      (([10, 20, 30] : List ℚ).length = 1 → s.var_ms = 0) ∧
      (([10, 20, 30] : List ℚ).length < 20 → s.p95_ms = s.max_ms) ∧
      (([10, 20, 30] : List ℚ).length < 100 → s.p99_ms = s.max_ms) :=
  C5_calculate_stats.1 [10, 20, 30] (by simp)

/-! ### C1 — faster backend selection -/

/-- **C1 counterexample**: with both backends producing exactly one
successful result of identical elapsed time (`5 ms` each), the two means
are equal, yet `faster_option` is `"graphql"` (the graph backend), not
`"sql"` (the relational backend) as the claim's tie rule demands. -/
theorem C1_tie_counterexample :
    ((run_single_test ⟨[], "idle"⟩ "simple_select" 1 false
        [⟨.sql, 5, none, false⟩] [⟨.graphql, 5, none, false⟩]).1.toOption.bind
      (fun r => r.comparison)).map Comparison.faster_option = some "graphql" ∧
    "graphql" ≠ "sql" := by
  constructor
  · norm_num [run_single_test, test_query_names, successTimes, pyMean,
      Except.toOption]
  · decide

/-- **C1 amended**: whenever both backends have at least one successful
result, `run_single_test` produces a `comparison` whose `faster_option`
names the backend with the strictly smaller mean elapsed time, and an
exact tie of the two means resolves to the graph (`"graphql"`) backend —
not to the relational one as the spec states. -/
theorem C1_faster_backend (a : Analyzer) (name : String) (iters : ℕ)
    (uc : Bool) (sqlRs gqlRs : List ExecResult)
    (hname : name ∈ test_query_names)
    (hs : successTimes sqlRs ≠ []) (hg : successTimes gqlRs ≠ []) :
    ∃ rec_ a', run_single_test a name iters uc sqlRs gqlRs = (.ok rec_, a') ∧
      ∃ c, rec_.comparison = some c ∧
        c.sql_avg_ms = pyMean (successTimes sqlRs) ∧
        c.graphql_avg_ms = pyMean (successTimes gqlRs) ∧
        (c.sql_avg_ms < c.graphql_avg_ms → c.faster_option = "sql") ∧
        (c.graphql_avg_ms < c.sql_avg_ms → c.faster_option = "graphql") ∧
        (c.sql_avg_ms = c.graphql_avg_ms → c.faster_option = "graphql") := by
  rw [run_single_test, if_neg (by simpa using hname)]
  simp only [if_pos (And.intro hs hg), ne_eq]
  refine ⟨_, a, rfl, _, rfl, rfl, rfl, ?_, ?_, ?_⟩
  · intro h
    simp only [if_pos h]
  · intro h
    rw [if_neg (not_lt.mpr (le_of_lt h))]
  · intro h
    rw [if_neg (not_lt.mpr (le_of_eq h.symm))]

/-- Witness for C1 amended at a concrete run with one successful result
per backend. -/
theorem C1_faster_backend_witness :
    ∃ rec_ a', run_single_test ⟨[], "idle"⟩ "simple_select" 3 false
        [⟨.sql, 1, none, false⟩] [⟨.graphql, 2, none, false⟩] = (.ok rec_, a') ∧
      ∃ c, rec_.comparison = some c ∧
        c.sql_avg_ms = pyMean (successTimes [⟨.sql, 1, none, false⟩]) ∧
        c.graphql_avg_ms = pyMean (successTimes [⟨.graphql, 2, none, false⟩]) ∧
        (c.sql_avg_ms < c.graphql_avg_ms → c.faster_option = "sql") ∧
        (c.graphql_avg_ms < c.sql_avg_ms → c.faster_option = "graphql") ∧
        (c.sql_avg_ms = c.graphql_avg_ms → c.faster_option = "graphql") :=
  C1_faster_backend ⟨[], "idle"⟩ "simple_select" 3 false _ _
    (by simp [test_query_names])
    (by simp [successTimes]) (by simp [successTimes])

/-! ### C2 — unknown `test_name` validation -/

/-- **C2**: with an unknown test name, `run_single_test` raises before
touching any state (status and history unchanged), as the claim says —
but `run_concurrent_test` sets `self.test_status = "running_concurrent"`
*before* validating the test name, so the failed call leaves the status
changed (and, since the raise skips every later assignment, stuck); only
the history is untouched.  This contradicts the claim's "the run status
observed after the failed call equals the status observed before it". -/
theorem C2_unknown_test_validation :
    (run_single_test ⟨[], "idle"⟩ "nonexistent" 5 false [] []).1 =
      .error ("Unknown test: " ++ "nonexistent") ∧
    (run_single_test ⟨[], "idle"⟩ "nonexistent" 5 false [] []).2 =
      ⟨[], "idle"⟩ ∧
    (run_concurrent_test ⟨[], "idle"⟩ "nonexistent" 10 60 []).1 =
      .error ("Unknown test: " ++ "nonexistent") ∧
    (run_concurrent_test ⟨[], "idle"⟩ "nonexistent" 10 60 []).2.test_results =
      ([] : List HistEntry) ∧
    (run_concurrent_test ⟨[], "idle"⟩ "nonexistent" 10 60 []).2.test_status =
      "running_concurrent" ∧
    "running_concurrent" ≠ "idle" := by
  refine ⟨?_, ?_, ?_, ?_, ?_, by decide⟩ <;>
    simp [run_single_test, run_concurrent_test, test_query_names]

/-! ### C3 — empty success sample and the stats field -/

/-- **C3 counterexample**: a concurrent run whose only result is an
errored relational call has an empty success sample for both backends,
and its `sql_stats` field is the *empty dict* `{}` returned by the
unguarded `_calculate_stats` call — not `None`/absent as the claim
demands for every run. -/
theorem C3_concurrent_empty_counterexample :
    ∃ rec_ a', run_concurrent_test ⟨[], "idle"⟩ "simple_select" 1 2
        [⟨.sql, 5, some "boom", false⟩] = (.ok rec_, a') ∧
      rec_.sql_stats = StatsField.emptyDict ∧
      rec_.graphql_stats = StatsField.emptyDict ∧
      StatsField.emptyDict ≠ StatsField.null := by
  refine ⟨_, _, rfl, ?_, ?_, by decide⟩ <;>
    simp [run_concurrent_test, test_query_names, calculate_stats]

/-- **C3 amended**: in `run_single_test` a backend with an empty success
sample gets `None` (absent) for its stats field and a non-empty sample a
fully populated stats dict — but in `run_concurrent_test` the stats field
of a backend with an empty success sample is the empty dict `{}` that
`_calculate_stats` returns, not an absent value. -/
theorem C3_empty_stats_field :
    (∀ (a : Analyzer) (name : String) (it : ℕ) (uc : Bool)
        (sqlRs gqlRs : List ExecResult), name ∈ test_query_names →
      ∃ rec_ a', run_single_test a name it uc sqlRs gqlRs = (.ok rec_, a') ∧
        (successTimes sqlRs = [] → rec_.sql_stats = .null) ∧
        (successTimes gqlRs = [] → rec_.graphql_stats = .null) ∧
        (successTimes sqlRs ≠ [] →
          rec_.sql_stats = .stats (statsOf (successTimes sqlRs))) ∧
        (successTimes gqlRs ≠ [] →
          rec_.graphql_stats = .stats (statsOf (successTimes gqlRs)))) ∧
    (∀ (a : Analyzer) (name : String) (u d : ℕ) (results : List ExecResult),
        name ∈ test_query_names →
      ∃ rec_ a', run_concurrent_test a name u d results = (.ok rec_, a') ∧
        (results.filter (fun r => r.query_type = .sql ∧ r.error = none) = [] →
          rec_.sql_stats = .emptyDict) ∧
        (results.filter (fun r => r.query_type = .graphql ∧ r.error = none) = [] →
          rec_.graphql_stats = .emptyDict)) := by
  constructor
  · intro a name it uc sqlRs gqlRs hname
    rw [run_single_test, if_neg (by simpa using hname)]
    refine ⟨_, a, rfl, ?_, ?_, ?_, ?_⟩ <;> intro h <;>
      simp [h, calculate_stats]
  · intro a name u d results hname
    rw [run_concurrent_test]
    simp only [if_neg (by simpa using hname : ¬ name ∉ test_query_names)]
    refine ⟨_, _, rfl, fun h => ?_, fun h => ?_⟩ <;>
      · show calculate_stats _ = _
        rw [h]
        rfl

/-- Witness for C3 amended: a single run with no successful relational
results gets a `None` stats field; a concurrent run with no results at
all gets empty-dict stats fields. -/
theorem C3_empty_stats_field_witness :
    (∃ rec_ a', run_single_test ⟨[], "idle"⟩ "simple_select" 1 false
        [⟨.sql, 5, some "boom", false⟩] [⟨.graphql, 7, none, false⟩] =
          (.ok rec_, a') ∧
        (successTimes [⟨.sql, 5, some "boom", false⟩] = [] →
          rec_.sql_stats = .null) ∧
        (successTimes [⟨.graphql, 7, none, false⟩] = [] →
          rec_.graphql_stats = .null) ∧
        (successTimes [⟨.sql, 5, some "boom", false⟩] ≠ [] →
          rec_.sql_stats =
            .stats (statsOf (successTimes [⟨.sql, 5, some "boom", false⟩]))) ∧
        (successTimes [⟨.graphql, 7, none, false⟩] ≠ [] →
          rec_.graphql_stats =
            .stats (statsOf (successTimes [⟨.graphql, 7, none, false⟩])))) ∧
    (∃ rec_ a', run_concurrent_test ⟨[], "idle"⟩ "simple_select" 3 2 [] =
        (.ok rec_, a') ∧
      (([] : List ExecResult).filter
          (fun r => r.query_type = .sql ∧ r.error = none) = [] →
        rec_.sql_stats = .emptyDict) ∧
      (([] : List ExecResult).filter
          (fun r => r.query_type = .graphql ∧ r.error = none) = [] →
        rec_.graphql_stats = .emptyDict)) :=
  ⟨C3_empty_stats_field.1 ⟨[], "idle"⟩ "simple_select" 1 false _ _
      (by simp [test_query_names]),
   C3_empty_stats_field.2 ⟨[], "idle"⟩ "simple_select" 3 2 []
      (by simp [test_query_names])⟩

/-! ### C4 — per-call errors and the success statistics -/

lemma successTimes_filter (rs : List ExecResult) :
    successTimes (rs.filter (fun r => r.error = none)) = successTimes rs := by
  simp only [successTimes, List.filter_filter]
  have hfun : (fun a : ExecResult =>
      decide (a.error = none) && decide (a.error = none)) =
      fun r : ExecResult => decide (r.error = none) := by
    funext r
    by_cases h : r.error = none <;> simp [h]
  rw [hfun]

lemma concFilter_drop_err (rs : List ExecResult) (ty : QueryType) :
    (rs.filter (fun r => r.error = none)).filter
        (fun r => r.query_type = ty ∧ r.error = none) =
      rs.filter (fun r => r.query_type = ty ∧ r.error = none) := by
  rw [List.filter_filter]
  have hfun : (fun a : ExecResult =>
      decide (a.query_type = ty ∧ a.error = none) && decide (a.error = none)) =
      fun r : ExecResult => decide (r.query_type = ty ∧ r.error = none) := by
    funext r
    by_cases h : r.error = none <;> simp [h]
  rw [hfun]

/-- **C4 counterexample**: `run_individual_test` with one successful
GraphQL call of `100 ms` and one errored call produces the sample
`[0.1, 0]` — the errored call contributes the literal `0` — and a mean
of `0.05 s`, different from the `0.1 s` mean of the successful results
alone.  So not every run excludes errored calls from its mean, contrary
to the claim. -/
theorem C4_error_zero_counterexample :
    ∃ rec_ a', run_individual_test ⟨[], "idle"⟩ "simple_select" 2 false [1, 1]
        [⟨.graphql, 100, none, false⟩, ⟨.graphql, 0, some "boom", false⟩] =
          (.ok rec_, a') ∧
      rec_.graphql_times = [1/10, 0] ∧
      rec_.graphql_time = 1/20 ∧
      (1/20 : ℚ) ≠ pyMean [1/10] := by
  refine ⟨_, _, rfl, ?_, ?_, ?_⟩
  · norm_num [run_individual_test, test_query_names]
  · norm_num [run_individual_test, test_query_names]
  · norm_num [pyMean]

/-- **C4 amended**: in `run_single_test` and `run_concurrent_test` the
aggregated sample for a backend is exactly the elapsed times of its
error-free results — deleting the errored results from the trace changes
neither the stats fields nor the comparison — but in
`run_individual_test` an errored GraphQL call contributes the literal
`0` to the sample and hence to the mean. -/
theorem C4_error_exclusion :
    (∀ rs : List ExecResult, successTimes rs =
      (rs.filter (fun r => r.error = none)).map
        (fun r => r.execution_time_ms)) ∧
    (∀ (a : Analyzer) (name : String) (it : ℕ) (uc : Bool)
        (sqlRs gqlRs : List ExecResult), name ∈ test_query_names →
      ∃ rec_ a' rec2 a2,
        run_single_test a name it uc sqlRs gqlRs = (.ok rec_, a') ∧
        run_single_test a name it uc
          (sqlRs.filter (fun r => r.error = none))
          (gqlRs.filter (fun r => r.error = none)) = (.ok rec2, a2) ∧
        rec_.sql_stats = rec2.sql_stats ∧
        rec_.graphql_stats = rec2.graphql_stats ∧
        rec_.comparison = rec2.comparison) ∧
    (∀ (a : Analyzer) (name : String) (u d : ℕ) (results : List ExecResult),
        name ∈ test_query_names →
      ∃ rec_ a' rec2 a2,
        run_concurrent_test a name u d results = (.ok rec_, a') ∧
        run_concurrent_test a name u d
          (results.filter (fun r => r.error = none)) = (.ok rec2, a2) ∧
        rec_.sql_stats = rec2.sql_stats ∧
        rec_.graphql_stats = rec2.graphql_stats) ∧
    (∀ (a : Analyzer) (name : String) (it : ℕ) (uc : Bool)
        (sqlTimes : List ℚ) (gqlRs : List ExecResult) (i : ℕ)
        (r0 : ExecResult), name ∈ test_query_names →
      gqlRs.get? i = some r0 → r0.error ≠ none →
      ∃ rec_ a', run_individual_test a name it uc sqlTimes gqlRs =
          (.ok rec_, a') ∧
        rec_.graphql_times.get? i = some 0) := by
  refine ⟨fun rs => rfl, ?_, ?_, ?_⟩
  · intro a name it uc sqlRs gqlRs hname
    have hm : ¬ name ∉ test_query_names := by simpa using hname
    simp only [run_single_test, if_neg hm]
    refine ⟨_, a, _, a, rfl, rfl, ?_, ?_, ?_⟩ <;> dsimp only
    · rw [successTimes_filter]
    · rw [successTimes_filter]
    · rw [successTimes_filter, successTimes_filter]
  · intro a name u d results hname
    have hm : ¬ name ∉ test_query_names := by simpa using hname
    simp only [run_concurrent_test, if_neg hm]
    refine ⟨_, _, _, _, rfl, rfl, ?_, ?_⟩ <;> dsimp only
    · rw [concFilter_drop_err]
    · rw [concFilter_drop_err]
  · intro a name it uc sqlTimes gqlRs i r0 hname hget herr
    rw [run_individual_test, if_neg (by simpa using hname)]
    refine ⟨_, _, rfl, ?_⟩
    dsimp only
    have hmap : (gqlRs.map (fun r =>
        if r.error = none then r.execution_time_ms / 1000 else 0)).get? i =
        (gqlRs.get? i).map (fun r =>
          if r.error = none then r.execution_time_ms / 1000 else 0) :=
      List.get?_map _ _ _
    rw [hmap, hget]
    simp [herr]

/-- Witness for C4 amended at concrete traces: one errored relational
result in a single run, one errored result in a concurrent run, and an
errored GraphQL call at index 1 of an individual run. -/
theorem C4_error_exclusion_witness :
    (successTimes [⟨.sql, 5, some "x", false⟩] =
      (([⟨.sql, 5, some "x", false⟩] : List ExecResult).filter
          (fun r => r.error = none)).map (fun r => r.execution_time_ms)) ∧
    (∃ rec_ a' rec2 a2,
        run_single_test ⟨[], "idle"⟩ "simple_select" 2 false
          [⟨.sql, 1, none, false⟩, ⟨.sql, 9, some "x", false⟩]
          [⟨.graphql, 2, none, false⟩] = (.ok rec_, a') ∧
        run_single_test ⟨[], "idle"⟩ "simple_select" 2 false
          (([⟨.sql, 1, none, false⟩, ⟨.sql, 9, some "x", false⟩] :
              List ExecResult).filter (fun r => r.error = none))
          (([⟨.graphql, 2, none, false⟩] : List ExecResult).filter
              (fun r => r.error = none)) = (.ok rec2, a2) ∧
        rec_.sql_stats = rec2.sql_stats ∧
        rec_.graphql_stats = rec2.graphql_stats ∧
        rec_.comparison = rec2.comparison) ∧
    (∃ rec_ a' rec2 a2,
        run_concurrent_test ⟨[], "idle"⟩ "simple_select" 2 3
          [⟨.sql, 1, none, false⟩, ⟨.graphql, 9, some "x", false⟩] =
            (.ok rec_, a') ∧
        run_concurrent_test ⟨[], "idle"⟩ "simple_select" 2 3
          (([⟨.sql, 1, none, false⟩, ⟨.graphql, 9, some "x", false⟩] :
              List ExecResult).filter (fun r => r.error = none)) =
            (.ok rec2, a2) ∧
        rec_.sql_stats = rec2.sql_stats ∧
        rec_.graphql_stats = rec2.graphql_stats) ∧
    (∃ rec_ a', run_individual_test ⟨[], "idle"⟩ "simple_select" 2 false [1, 1]
        [⟨.graphql, 100, none, false⟩, ⟨.graphql, 7, some "boom", false⟩] =
          (.ok rec_, a') ∧
      rec_.graphql_times.get? 1 = some 0) :=
  ⟨C4_error_exclusion.1 [⟨.sql, 5, some "x", false⟩],
   C4_error_exclusion.2.1 ⟨[], "idle"⟩ "simple_select" 2 false _ _
     (by simp [test_query_names]),
   C4_error_exclusion.2.2.1 ⟨[], "idle"⟩ "simple_select" 2 3 _
     (by simp [test_query_names]),
   C4_error_exclusion.2.2.2 ⟨[], "idle"⟩ "simple_select" 2 false [1, 1] _ 1
     ⟨.graphql, 7, some "boom", false⟩ (by simp [test_query_names]) rfl
     (by simp)⟩

/-! ### C6 — cache-aware query execution -/

/-- **C6**: with `use_cache = true`, (i) a cache hit returns immediately
with `cache_hit = true` and the (rounded) cache-retrieval latency as the
elapsed time, never calling the database; (ii) after a first call that
misses, executes and writes back, a second identical call is a hit and
leaves the database call counter at `1` over the two calls; the
write-back lands under the same derived key and stores the query result;
(iii) on a database error nothing is written back; (iv) a failing cache
write leaves the call's successful response untouched. -/
theorem C6_cache_protocol :
    (∀ (H : String → List String → String) (s : Sys) (q : String)
        (rt now err_ms : ℚ) (e : CacheEntry),
      s.cache.redis.getFails = false →
      storeLookup s.cache.redis.store (_generate_cache_key H "query" q none) =
        some e →
      execute_sql_query H s q true rt now err_ms =
        (.ok e.data (pyRound2 rt) e.data.length true,
         { s with cache := { s.cache with hits := s.cache.hits + 1 } })) ∧
    (∀ (H : String → List String → String) (s : Sys) (q : String)
        (rt now err_ms rt2 now2 err2 : ℚ) (data : Data) (t : ℚ),
      s.cache.redis.getFails = false → s.cache.redis.setFails = false →
      storeLookup s.cache.redis.store (_generate_cache_key H "query" q none) =
        none →
      s.db.behavior s.db.calls q = .ok (data, t) →
      (execute_sql_query H s q true rt now err_ms).1 =
        .ok data t data.length false ∧
      (execute_sql_query H s q true rt now err_ms).2.db.calls =
        s.db.calls + 1 ∧
      storeLookup (execute_sql_query H s q true rt now err_ms).2.cache.redis.store
        (_generate_cache_key H "query" q none) =
        some ⟨data, now, CACHE_TTL_SECONDS⟩ ∧
      (execute_sql_query H
          (execute_sql_query H s q true rt now err_ms).2 q true rt2 now2 err2).1 =
        .ok data (pyRound2 rt2) data.length true ∧
      (execute_sql_query H
          (execute_sql_query H s q true rt now err_ms).2 q true rt2 now2 err2).2.db.calls =
        s.db.calls + 1) ∧
    (∀ (H : String → List String → String) (s : Sys) (q : String)
        (rt now err_ms : ℚ) (e : String),
      s.cache.redis.getFails = false →
      storeLookup s.cache.redis.store (_generate_cache_key H "query" q none) =
        none →
      s.db.behavior s.db.calls q = .error e →
      (execute_sql_query H s q true rt now err_ms).1 = .err e err_ms ∧
      (execute_sql_query H s q true rt now err_ms).2.cache.redis.store =
        s.cache.redis.store ∧
      (execute_sql_query H s q true rt now err_ms).2.cache.sets =
        s.cache.sets) ∧
    (∀ (H : String → List String → String) (s : Sys) (q : String)
        (rt now err_ms : ℚ) (data : Data) (t : ℚ),
      s.cache.redis.getFails = false → s.cache.redis.setFails = true →
      storeLookup s.cache.redis.store (_generate_cache_key H "query" q none) =
        none →
      s.db.behavior s.db.calls q = .ok (data, t) →
      (execute_sql_query H s q true rt now err_ms).1 =
        .ok data t data.length false ∧
      (execute_sql_query H s q true rt now err_ms).2.cache.redis.store =
        s.cache.redis.store) := by
  refine ⟨?_, ?_, ?_, ?_⟩
  · intro H s q rt now err_ms e hget hlook
    simp [execute_sql_query, get_cached_query, Redis.get, hget, hlook]
  · intro H s q rt now err_ms rt2 now2 err2 data t hget hset hlook hbeh
    simp [execute_sql_query, get_cached_query, Redis.get, hget, hlook,
      execSqlMiss, Db.exec, hbeh, cache_query_result, Redis.setex, hset,
      storeLookup]
  · intro H s q rt now err_ms e hget hlook hbeh
    simp [execute_sql_query, get_cached_query, Redis.get, hget, hlook,
      execSqlMiss, Db.exec, hbeh]
  · intro H s q rt now err_ms data t hget hset hlook hbeh
    simp [execute_sql_query, get_cached_query, Redis.get, hget, hlook,
      execSqlMiss, Db.exec, hbeh, cache_query_result, Redis.setex, hset]

/-- Witness for C6 at a concrete system: empty cache, database returning
one row in `42 ms`. -/
theorem C6_cache_protocol_witness :
    (execute_sql_query (fun _ _ => "h") ⟨⟨0, fun _ _ => .ok (["row"], 42)⟩,
        ⟨⟨[], false, false⟩, 0, 0, 0, 0⟩⟩ "SELECT 1" true 3 100 0).1 =
      .ok ["row"] 42 ["row"].length false ∧
    (execute_sql_query (fun _ _ => "h") ⟨⟨0, fun _ _ => .ok (["row"], 42)⟩,
        ⟨⟨[], false, false⟩, 0, 0, 0, 0⟩⟩ "SELECT 1" true 3 100 0).2.db.calls =
      0 + 1 ∧
    storeLookup (execute_sql_query (fun _ _ => "h")
        ⟨⟨0, fun _ _ => .ok (["row"], 42)⟩,
         ⟨⟨[], false, false⟩, 0, 0, 0, 0⟩⟩ "SELECT 1" true 3 100 0).2.cache.redis.store
      (_generate_cache_key (fun _ _ => "h") "query" "SELECT 1" none) =
      some ⟨["row"], 100, CACHE_TTL_SECONDS⟩ ∧
    (execute_sql_query (fun _ _ => "h")
        (execute_sql_query (fun _ _ => "h") ⟨⟨0, fun _ _ => .ok (["row"], 42)⟩,
          ⟨⟨[], false, false⟩, 0, 0, 0, 0⟩⟩ "SELECT 1" true 3 100 0).2
        "SELECT 1" true 7 200 0).1 =
      .ok ["row"] (pyRound2 7) ["row"].length true ∧
    (execute_sql_query (fun _ _ => "h")
        (execute_sql_query (fun _ _ => "h") ⟨⟨0, fun _ _ => .ok (["row"], 42)⟩,
          ⟨⟨[], false, false⟩, 0, 0, 0, 0⟩⟩ "SELECT 1" true 3 100 0).2
        "SELECT 1" true 7 200 0).2.db.calls = 0 + 1 :=
  C6_cache_protocol.2.1 (fun _ _ => "h")
    ⟨⟨0, fun _ _ => .ok (["row"], 42)⟩, ⟨⟨[], false, false⟩, 0, 0, 0, 0⟩⟩
    "SELECT 1" 3 100 0 7 200 0 ["row"] 42 rfl rfl rfl rfl

/-! ### C8 — cache-backend errors are swallowed -/

/-- **C8**: a raised redis error inside `get_cached_query` is swallowed:
the call returns `None` with the miss counter incremented (hits, sets,
deletes and the store untouched); a raised redis error inside
`cache_query_result` is swallowed: the call returns `False` with the
whole cache state untouched; and a failing cache backend never fails the
enclosing query execution — with a raising cache `get`, a successful
database call still yields the ordinary success response. -/
theorem C8_cache_errors_swallowed :
    (∀ (H : String → List String → String) (st : CacheMgr) (q : String)
        (params : Option (List String)) (rt : ℚ),
      st.redis.getFails = true →
      get_cached_query H st q params rt =
        (none, { st with misses := st.misses + 1 })) ∧
    (∀ (H : String → List String → String) (st : CacheMgr) (q : String)
        (data : Data) (params : Option (List String)) (ttl : Option ℕ)
        (now : ℚ),
      st.redis.setFails = true →
      cache_query_result H st q data params ttl now = (false, st)) ∧
    (∀ (H : String → List String → String) (s : Sys) (q : String)
        (rt now err_ms : ℚ) (data : Data) (t : ℚ),
      s.cache.redis.getFails = true →
      s.db.behavior s.db.calls q = .ok (data, t) →
      (execute_sql_query H s q true rt now err_ms).1 =
        .ok data t data.length false) := by
  refine ⟨?_, ?_, ?_⟩
  · intro H st q params rt hget
    simp [get_cached_query, Redis.get, hget]
  · intro H st q data params ttl now hset
    simp [cache_query_result, Redis.setex, hset]
  · intro H s q rt now err_ms data t hget hbeh
    cases hset : s.cache.redis.setFails <;>
      simp [execute_sql_query, get_cached_query, Redis.get, hget,
        execSqlMiss, Db.exec, hbeh, cache_query_result, Redis.setex, hset]

/-- Witness for C8 at a concrete cache whose redis raises on both `get`
and `set`. -/
theorem C8_cache_errors_swallowed_witness :
    get_cached_query (fun _ _ => "h") ⟨⟨[], true, true⟩, 4, 7, 2, 1⟩
        "SELECT 1" none 3 =
      (none, { (⟨⟨[], true, true⟩, 4, 7, 2, 1⟩ : CacheMgr) with
                misses := 7 + 1 }) ∧
    cache_query_result (fun _ _ => "h") ⟨⟨[], true, true⟩, 4, 7, 2, 1⟩
        "SELECT 1" ["row"] none none 100 =
      (false, ⟨⟨[], true, true⟩, 4, 7, 2, 1⟩) ∧
    (execute_sql_query (fun _ _ => "h") ⟨⟨0, fun _ _ => .ok (["row"], 42)⟩,
        ⟨⟨[], true, true⟩, 4, 7, 2, 1⟩⟩ "SELECT 1" true 3 100 0).1 =
      .ok ["row"] 42 ["row"].length false :=
  ⟨C8_cache_errors_swallowed.1 (fun _ _ => "h") ⟨⟨[], true, true⟩, 4, 7, 2, 1⟩
      "SELECT 1" none 3 rfl,
   C8_cache_errors_swallowed.2.1 (fun _ _ => "h")
      ⟨⟨[], true, true⟩, 4, 7, 2, 1⟩ "SELECT 1" ["row"] none none 100 rfl,
   C8_cache_errors_swallowed.2.2 (fun _ _ => "h")
      ⟨⟨0, fun _ _ => .ok (["row"], 42)⟩, ⟨⟨[], true, true⟩, 4, 7, 2, 1⟩⟩
      "SELECT 1" 3 100 0 ["row"] 42 rfl rfl⟩

/-! ### C7 — result history across `run_comprehensive_tests` -/

lemma collectRuns_mem (outcome : ℕ → Except String HistEntry) :
    ∀ (n i j : ℕ) (r : HistEntry), j < n →
      (∀ k, k < j → ∃ rk, outcome (i + k) = .ok rk) →
      outcome (i + j) = .ok r →
      r ∈ (collectRuns outcome i n).1 := by
  intro n
  induction n with
  | zero => intro i j r hj; omega
  | succ n ih =>
    intro i j r hj hprev hcur
    cases j with
    | zero =>
      rw [collectRuns]
      rw [show i + 0 = i from rfl] at hcur
      rw [hcur]
      exact List.mem_cons_self _ _
    | succ j' =>
      obtain ⟨r0, hr0⟩ := hprev 0 (Nat.succ_pos j')
      rw [show i + 0 = i from rfl] at hr0
      rw [collectRuns, hr0]
      refine List.mem_cons_of_mem _ (ih (i + 1) j' r (by omega) ?_ ?_)
      · intro k hk
        have := hprev (k + 1) (by omega)
        rwa [show i + (k + 1) = i + 1 + k by omega] at this
      · rwa [show i + 1 + j' = i + (j' + 1) by omega]

/-- **C7 counterexample**: a record present in the history before
`run_comprehensive_tests` starts is gone afterwards — the method's first
action is `self.test_results = []` — even though the run's first scenario
is the point of failure, so the claim's "records present in the history
before run_comprehensive starts are still present afterwards" is false. -/
theorem C7_history_cleared_counterexample :
    HistEntry.indiv ⟨"t", 0, false, 0, 0, [], [], 0⟩ ∈
      ([HistEntry.indiv ⟨"t", 0, false, 0, 0, [], [], 0⟩] : List HistEntry) ∧
    (run_comprehensive_tests
        ⟨[HistEntry.indiv ⟨"t", 0, false, 0, 0, [], [], 0⟩], "idle"⟩
        (fun _ => .error "boom")).test_results = [] ∧
    (run_comprehensive_tests
        ⟨[HistEntry.indiv ⟨"t", 0, false, 0, 0, [], [], 0⟩], "idle"⟩
        (fun _ => .error "boom")).test_status = "failed" := by
  refine ⟨List.mem_cons_self _ _, rfl, rfl⟩

/-- **C7 amended**: `run_comprehensive_tests` starts by *clearing* the
history, so records from before the call never survive it (the final
history does not depend on the prior analyzer state at all); within the
comprehensive matrix the history is append-only — every scenario that
completes before the first failing scenario has its record in the final
history. -/
theorem C7_history_comprehensive :
    (∀ (a b : Analyzer) (outcome : ℕ → Except String HistEntry),
      (run_comprehensive_tests a outcome).test_results =
        (run_comprehensive_tests b outcome).test_results) ∧
    (∀ (a : Analyzer) (outcome : ℕ → Except String HistEntry) (j : ℕ)
        (r : HistEntry), j < comprehensiveSlots →
      (∀ k, k < j → ∃ rk, outcome k = .ok rk) →
      outcome j = .ok r →
      r ∈ (run_comprehensive_tests a outcome).test_results) := by
  constructor
  · intro a b outcome
    rfl
  · intro a outcome j r hj hprev hcur
    have := collectRuns_mem outcome comprehensiveSlots 0 j r hj
      (by intro k hk; simpa using hprev k hk) (by simpa using hcur)
    simpa [run_comprehensive_tests] using this

/-- Witness for C7 amended: a matrix whose first scenario completes and
whose second fails keeps the first scenario's record in the history. -/
theorem C7_history_comprehensive_witness :
    ((run_comprehensive_tests ⟨[], "idle"⟩ (fun k =>
        if k = 0 then .ok (HistEntry.indiv ⟨"w", 1, false, 1, 1, [1], [1], 1⟩)
        else .error "boom")).test_results =
      (run_comprehensive_tests ⟨[HistEntry.indiv ⟨"t", 0, false, 0, 0, [], [], 0⟩],
          "completed"⟩ (fun k =>
        if k = 0 then .ok (HistEntry.indiv ⟨"w", 1, false, 1, 1, [1], [1], 1⟩)
        else .error "boom")).test_results) ∧
    HistEntry.indiv ⟨"w", 1, false, 1, 1, [1], [1], 1⟩ ∈
      (run_comprehensive_tests ⟨[], "idle"⟩ (fun k =>
        if k = 0 then .ok (HistEntry.indiv ⟨"w", 1, false, 1, 1, [1], [1], 1⟩)
        else .error "boom")).test_results :=
  ⟨C7_history_comprehensive.1 ⟨[], "idle"⟩
      ⟨[HistEntry.indiv ⟨"t", 0, false, 0, 0, [], [], 0⟩], "completed"⟩ _,
   C7_history_comprehensive.2 ⟨[], "idle"⟩ _ 0
      (HistEntry.indiv ⟨"w", 1, false, 1, 1, [1], [1], 1⟩)
      (by simp [comprehensiveSlots, test_query_names])
      (by intro k hk; omega) rfl⟩

/-! ### C9 — concurrent record arithmetic -/

lemma count_partition (rs : List ExecResult) :
    (rs.filter (fun r => r.query_type = .sql ∧ r.error = none)).length +
    (rs.filter (fun r => r.query_type = .graphql ∧ r.error = none)).length +
    (rs.filter (fun r => r.error ≠ none)).length = rs.length := by
  induction rs with
  | nil => simp
  | cons r rs ih =>
    by_cases he : r.error = none
    · cases hq : r.query_type <;>
        (simp [List.filter_cons, he, hq] at ih ⊢; omega)
    · simp [List.filter_cons, he] at ih ⊢
      omega

/-- **C9**: for every `run_concurrent_test` with a known test and a
positive duration (a zero duration would make the source's
`len(results) / duration_seconds` raise), the returned record satisfies
`total_requests = successful_requests + #errored`,
`error_rate_percent = errored / total * 100` with value `0` for zero
total, and `requests_per_second = total / duration_seconds`. -/
theorem C9_concurrent_record (a : Analyzer) (name : String) (u d : ℕ)
    (results : List ExecResult) (hname : name ∈ test_query_names)
    (hd : 0 < d) :
    ∃ rec_ a', run_concurrent_test a name u d results = (.ok rec_, a') ∧
      rec_.total_requests = results.length ∧
      rec_.total_requests = rec_.successful_requests +
        (results.filter (fun r => r.error ≠ none)).length ∧
      (rec_.total_requests = 0 → rec_.error_rate_percent = 0) ∧
      (rec_.total_requests ≠ 0 → rec_.error_rate_percent =
        ((results.filter (fun r => r.error ≠ none)).length : ℚ) /
          (results.length : ℚ) * 100) ∧
      rec_.requests_per_second = (results.length : ℚ) / (d : ℚ) := by
  have hm : ¬ name ∉ test_query_names := by simpa using hname
  simp only [run_concurrent_test, if_neg hm]
  refine ⟨_, _, rfl, rfl, ?_, ?_, ?_, rfl⟩ <;> dsimp only
  · have := count_partition results
    omega
  · intro h0
    have : results = [] := List.length_eq_zero.mp h0
    simp [this]
  · intro h0
    have : results ≠ [] := fun h => h0 (by simp [h])
    simp [this]

/-- Witness for C9: three results (one relational success, one graph
success, one errored call) over a 2-second run. -/
theorem C9_concurrent_record_witness :
    ∃ rec_ a', run_concurrent_test ⟨[], "idle"⟩ "simple_select" 3 2
        [⟨.sql, 1, none, false⟩, ⟨.graphql, 2, none, false⟩,
         ⟨.sql, 0, some "boom", false⟩] = (.ok rec_, a') ∧
      rec_.total_requests =
        ([⟨.sql, 1, none, false⟩, ⟨.graphql, 2, none, false⟩,
          ⟨.sql, 0, some "boom", false⟩] : List ExecResult).length ∧
      rec_.total_requests = rec_.successful_requests +
        (([⟨.sql, 1, none, false⟩, ⟨.graphql, 2, none, false⟩,
           ⟨.sql, 0, some "boom", false⟩] : List ExecResult).filter
          (fun r => r.error ≠ none)).length ∧
      (rec_.total_requests = 0 → rec_.error_rate_percent = 0) ∧
      (rec_.total_requests ≠ 0 → rec_.error_rate_percent =
        ((([⟨.sql, 1, none, false⟩, ⟨.graphql, 2, none, false⟩,
            ⟨.sql, 0, some "boom", false⟩] : List ExecResult).filter
            (fun r => r.error ≠ none)).length : ℚ) /
          (([⟨.sql, 1, none, false⟩, ⟨.graphql, 2, none, false⟩,
             ⟨.sql, 0, some "boom", false⟩] : List ExecResult).length : ℚ) * 100) ∧
      rec_.requests_per_second =
        (([⟨.sql, 1, none, false⟩, ⟨.graphql, 2, none, false⟩,
           ⟨.sql, 0, some "boom", false⟩] : List ExecResult).length : ℚ) / (2 : ℚ) :=
  C9_concurrent_record ⟨[], "idle"⟩ "simple_select" 3 2 _
    (by simp [test_query_names]) (by norm_num)

/-! ### C10 — cache key derivation -/

/-- **C10**: key derivation is a pure function of prefix, query and
canonicalized parameters: (i) `params = None` and `params = []` derive
the identical key — and a `get` that omits the parameters after a `set`
that passed `[]` addresses the same entry, returning the stored data;
(ii) under the source's fixed `32`-character md5 hex digest, keys derived
under distinct namespace prefixes are never equal, for any queries and
parameter lists.  (Determinism itself is immediate: the embedding of
`_generate_cache_key` is a pure function of exactly these inputs, as the
source is of its inputs plus the deterministic `json.dumps`/`md5`.) -/
theorem C10_cache_key :
    (∀ (H : String → List String → String) (p q : String),
      _generate_cache_key H p q none = _generate_cache_key H p q (some [])) ∧
    (∀ (H : String → List String → String) (st : CacheMgr) (q : String)
        (data : Data) (now rt : ℚ),
      st.redis.getFails = false → st.redis.setFails = false →
      cache_query_result H st q data (some []) none now =
        (true,
         { st with
            redis := { st.redis with
              store := (_generate_cache_key H "query" q (some []),
                ⟨data, now, CACHE_TTL_SECONDS⟩) :: st.redis.store }
            sets := st.sets + 1 }) ∧
      (get_cached_query H
          { st with
            redis := { st.redis with
              store := (_generate_cache_key H "query" q (some []),
                ⟨data, now, CACHE_TTL_SECONDS⟩) :: st.redis.store }
            sets := st.sets + 1 } q none rt).1 =
        some ⟨data, now, CACHE_TTL_SECONDS, true, pyRound2 rt⟩) ∧
    (∀ (H : String → List String → String) (p1 p2 q1 q2 : String)
        (ps1 ps2 : Option (List String)),
      (∀ q ps, (H q ps).length = 32) → p1 ≠ p2 →
      _generate_cache_key H p1 q1 ps1 ≠ _generate_cache_key H p2 q2 ps2) := by
  refine ⟨fun H p q => rfl, ?_, ?_⟩
  · intro H st q data now rt hget hset
    constructor
    · simp [cache_query_result, Redis.setex, hset, CACHE_TTL_SECONDS]
    · simp [get_cached_query, Redis.get, hget, storeLookup,
        _generate_cache_key]
  · intro H p1 p2 q1 q2 ps1 ps2 hlen hne heq
    apply hne
    simp only [_generate_cache_key] at heq
    have hdata := congrArg String.data heq
    have hassoc : p1.data ++ (":".data ++ (H q1 (ps1.getD [])).data) =
        p2.data ++ (":".data ++ (H q2 (ps2.getD [])).data) := by
      simpa [List.append_assoc] using hdata
    have hsuffix : (":".data ++ (H q1 (ps1.getD [])).data).length =
        (":".data ++ (H q2 (ps2.getD [])).data).length := by
      have e1 : (H q1 (ps1.getD [])).data.length = 32 := hlen q1 _
      have e2 : (H q2 (ps2.getD [])).data.length = 32 := hlen q2 _
      simp [List.length_append, e1, e2]
    exact String.ext (List.append_inj' hassoc hsuffix).1

/-- Witness for C10 at a concrete 32-character digest function and the
source's two namespace prefixes (`"query"` and `"warm"`). -/
theorem C10_cache_key_witness :
    (cache_query_result (fun _ _ => "0123456789abcdef0123456789abcdef")
        ⟨⟨[], false, false⟩, 0, 0, 0, 0⟩ "SELECT 1" ["row"] (some []) none 100 =
      (true,
       { (⟨⟨[], false, false⟩, 0, 0, 0, 0⟩ : CacheMgr) with
          redis := { (⟨[], false, false⟩ : Redis) with
            store := (_generate_cache_key
                (fun _ _ => "0123456789abcdef0123456789abcdef") "query"
                "SELECT 1" (some []),
              ⟨["row"], 100, CACHE_TTL_SECONDS⟩) :: [] }
          sets := 0 + 1 }) ∧
     (get_cached_query (fun _ _ => "0123456789abcdef0123456789abcdef")
        { (⟨⟨[], false, false⟩, 0, 0, 0, 0⟩ : CacheMgr) with
           redis := { (⟨[], false, false⟩ : Redis) with
             store := (_generate_cache_key
                 (fun _ _ => "0123456789abcdef0123456789abcdef") "query"
                 "SELECT 1" (some []),
               ⟨["row"], 100, CACHE_TTL_SECONDS⟩) :: [] }
           sets := 0 + 1 } "SELECT 1" none 3).1 =
      some ⟨["row"], 100, CACHE_TTL_SECONDS, true, pyRound2 3⟩) ∧
    _generate_cache_key (fun _ _ => "0123456789abcdef0123456789abcdef")
        "query" "SELECT 1" none ≠
      _generate_cache_key (fun _ _ => "0123456789abcdef0123456789abcdef")
        "warm" "SELECT 2" (some ["p"]) :=
  ⟨C10_cache_key.2.1 (fun _ _ => "0123456789abcdef0123456789abcdef")
      ⟨⟨[], false, false⟩, 0, 0, 0, 0⟩ "SELECT 1" ["row"] 100 3 rfl rfl,
   C10_cache_key.2.2 (fun _ _ => "0123456789abcdef0123456789abcdef")
      "query" "warm" "SELECT 1" "SELECT 2" none (some ["p"])
      (fun _ _ => rfl) (by decide)⟩

end NPM
